import Mathlib

/-!
Shallow embedding of the `tyl-logging` crate (src/src/record.rs,
src/src/utils.rs, src/src/loggers/console.rs, src/src/loggers/json.rs,
src/src/config.rs).  Process environment state is modelled as an explicit
`EnvState` value passed to the functions that read environment variables;
stdout emission is modelled as the list of lines (or JSON values) a single
`log` call prints.  Rust `&mut self` methods returning `Result` are modelled
as functions returning the pair of the `Except` result and the final receiver
state, so that mutations surviving an early error return stay observable.
Rust `str::to_uppercase`/`to_lowercase` are modelled by the ASCII per-char
case maps, which agree with Rust on all ASCII input.
-/

/-- Log severity levels, from src/src/record.rs (`enum LogLevel`). -/
inductive LogLevel where
  | Trace
  | Debug
  | Info
  | Warn
  | Error
deriving DecidableEq, Repr

/-- Runtime environment, from src/src/config.rs (`enum Environment`). -/
inductive Environment where
  | Development
  | Production
  | Test
deriving DecidableEq, Repr

/-- JSON-like structured value standing for `serde_json::Value`. -/
inductive Json where
  | null
  | bool (b : Bool)
  | num (n : Int)
  | str (s : String)
  | arr (xs : List Json)
  | obj (kvs : List (String × Json))

/-- Model of `LogRecord` from src/src/record.rs; the `HashMap<String, Value>` of
fields is modelled as an association list. -/
structure LogRecord where
  level : LogLevel
  message : String
  timestamp : Nat
  fields : List (String × Json)
  request_id : Option String

/-- Model of the `TylError` values produced by this crate's config code: constructed via
`TylError::validation(field, msg)` or `TylError::configuration(msg)`. -/
inductive TylError where
  | validation (field msg : String)
  | configuration (msg : String)
deriving DecidableEq, Repr

/-- Model of `LoggingConfig` from src/src/config.rs. -/
structure LoggingConfig where
  service_name : String
  level : LogLevel
  environment : Environment
deriving DecidableEq, Repr

/-- The process environment variables this crate reads (src/src/config.rs):
`TYL_LOG_LEVEL`, `LOG_LEVEL`, `TYL_SERVICE_NAME`, `SERVICE_NAME`,
`TYL_ENVIRONMENT`, `ENVIRONMENT`; each is present or absent. -/
structure EnvState where
  tyl_log_level : Option String
  log_level : Option String
  tyl_service_name : Option String
  service_name : Option String
  tyl_environment : Option String
  environment : Option String
deriving DecidableEq, Repr

/-- Empty process environment. -/
def EnvState.empty : EnvState := ⟨none, none, none, none, none, none⟩

/-- Rust `str::to_uppercase`, restricted to the ASCII case map. -/
def rust_to_uppercase (s : String) : String := String.mk (s.data.map Char.toUpper)

/-- Rust `str::to_lowercase`, restricted to the ASCII case map. -/
def rust_to_lowercase (s : String) : String := String.mk (s.data.map Char.toLower)

/-- Model of `format_level` from src/src/utils.rs. -/
def format_level (level : LogLevel) : String :=
  match level with
  | LogLevel.Trace => "TRACE"
  | LogLevel.Debug => "DEBUG"
  | LogLevel.Info => "INFO"
  | LogLevel.Warn => "WARN"
  | LogLevel.Error => "ERROR"

/-- Model of `format_timestamp` from src/src/utils.rs: Rust `format!("{timestamp}")`
on a `u64`, i.e. decimal rendering. -/
def format_timestamp (timestamp : Nat) : String := Nat.repr timestamp

/-- Model of `LogRecord::with_request_id` from src/src/record.rs. -/
def LogRecord.with_request_id (r : LogRecord) (request_id : String) : LogRecord :=
  { r with request_id := some request_id }

/-- Model of `LogRecord::add_field` from src/src/record.rs: `HashMap::insert`,
modelled as last-write-wins on the association list. -/
def LogRecord.add_field (r : LogRecord) (key : String) (value : Json) : LogRecord :=
  { r with fields := (r.fields.filter (fun kv => kv.1 ≠ key)) ++ [(key, value)] }

/-- Model of `ConsoleLogger::log` from src/src/loggers/console.rs, as the list of
lines a single call prints to stdout. -/
def ConsoleLogger.log (record : LogRecord) : List String :=
  ["[" ++ format_timestamp record.timestamp ++ "] "
    ++ format_level record.level ++ ": " ++ record.message]

/-- The JSON value built by `JsonLogger::log` (src/src/loggers/json.rs):
the `serde_json::json!` object literal with its five keys in source order. -/
def JsonLogger.logValue (record : LogRecord) : Json :=
  Json.obj
    [("timestamp", Json.num record.timestamp),
     ("level", Json.str (format_level record.level)),
     ("message", Json.str record.message),
     ("fields", Json.obj record.fields),
     ("request_id",
       match record.request_id with
       | some id => Json.str id
       | none => Json.null)]

/-- Model of `JsonLogger::log` as the list of JSON values a single call prints. -/
def JsonLogger.log (record : LogRecord) : List Json :=
  [JsonLogger.logValue record]

/-- Keys of a JSON object, in order; non-objects have none. -/
def Json.obj_keys : Json → List String
  | Json.obj kvs => kvs.map Prod.fst
  | _ => []

/-- Association-list lookup used for JSON object keys. -/
def Json.assoc_find : List (String × Json) → String → Option Json
  | [], _ => none
  | (k, v) :: rest, key => if k = key then some v else Json.assoc_find rest key

/-- First value bound to a key in a JSON object. -/
def Json.obj_lookup : Json → String → Option Json
  | Json.obj kvs, key => Json.assoc_find kvs key
  | _, _ => none

/-- Model of `Environment::from_env` from src/src/config.rs: reads only the bare
`ENVIRONMENT` variable, defaulting the missing value to "development". -/
def Environment.from_env (s : EnvState) : Environment :=
  match rust_to_lowercase (s.environment.getD "development") with
  | "production" => Environment.Production
  | "prod" => Environment.Production
  | "test" => Environment.Test
  | "testing" => Environment.Test
  | _ => Environment.Development

/-- Model of `LoggingConfig::new` from src/src/config.rs. -/
def LoggingConfig.new (service_name : String) (s : EnvState) : LoggingConfig :=
  { service_name := service_name
    level := LogLevel.Info
    environment := Environment.from_env s }

/-- Effective log-level variable: `env::var("TYL_LOG_LEVEL").or_else(..
"LOG_LEVEL")` in `merge_env`. -/
def EnvState.eff_log_level (s : EnvState) : Option String :=
  s.tyl_log_level <|> s.log_level

/-- Effective service-name variable: `TYL_SERVICE_NAME` or else
`SERVICE_NAME` in `merge_env`. -/
def EnvState.eff_service_name (s : EnvState) : Option String :=
  s.tyl_service_name <|> s.service_name

/-- Effective runtime-environment variable: `TYL_ENVIRONMENT` or else
`ENVIRONMENT` in `merge_env`. -/
def EnvState.eff_environment (s : EnvState) : Option String :=
  s.tyl_environment <|> s.environment

/-- The log-level match arms of `merge_env` (`level_str.to_uppercase()`). -/
def parse_log_level (level_str : String) : Option LogLevel :=
  match rust_to_uppercase level_str with
  | "TRACE" => some LogLevel.Trace
  | "DEBUG" => some LogLevel.Debug
  | "INFO" => some LogLevel.Info
  | "WARN" => some LogLevel.Warn
  | "WARNING" => some LogLevel.Warn
  | "ERROR" => some LogLevel.Error
  | _ => none

/-- The environment match arms of `merge_env` (`env_str.to_lowercase()`). -/
def parse_environment (env_str : String) : Option Environment :=
  match rust_to_lowercase env_str with
  | "development" => some Environment.Development
  | "dev" => some Environment.Development
  | "production" => some Environment.Production
  | "prod" => some Environment.Production
  | "test" => some Environment.Test
  | "testing" => some Environment.Test
  | _ => none

/-- Tail of `merge_env` after the log-level block: the service-name overlay
followed by the environment overlay. -/
def LoggingConfig.merge_env_rest (c : LoggingConfig) (s : EnvState) :
    Except TylError Unit × LoggingConfig :=
  let c :=
    match s.eff_service_name with
    | some service_name => { c with service_name := service_name }
    | none => c
  match s.eff_environment with
  | some env_str =>
    match parse_environment env_str with
    | some e => (Except.ok (), { c with environment := e })
    | none =>
      (Except.error (TylError.configuration ("invalid environment: " ++ env_str)), c)
  | none => (Except.ok (), c)

/-- Model of `LoggingConfig::merge_env` from src/src/config.rs.  The Rust method
mutates `&mut self` and returns `ConfigResult<()>`; here it returns the
result paired with the final receiver state so mutations preceding an
early error return stay observable. -/
def LoggingConfig.merge_env (c : LoggingConfig) (s : EnvState) :
    Except TylError Unit × LoggingConfig :=
  match s.eff_log_level with
  | some level_str =>
    match parse_log_level level_str with
    | some lv => LoggingConfig.merge_env_rest { c with level := lv } s
    | none =>
      (Except.error (TylError.configuration ("invalid log level: " ++ level_str)), c)
  | none => LoggingConfig.merge_env_rest c s

/-- Model of `ConfigPlugin::validate` for `LoggingConfig` (src/src/config.rs). -/
def LoggingConfig.validate (c : LoggingConfig) : Except TylError Unit :=
  if c.service_name = "" then
    Except.error (TylError.validation "service_name" "cannot be empty")
  else
    Except.ok ()

/-- Model of `ConfigPlugin::from_env` for `LoggingConfig` (src/src/config.rs):
builds `Self::new("app")`, merges the environment, and returns the merged
config, propagating any merge error. -/
def LoggingConfig.from_env (_self : LoggingConfig) (s : EnvState) :
    Except TylError LoggingConfig :=
  match LoggingConfig.merge_env (LoggingConfig.new "app" s) s with
  | (Except.ok _, config) => Except.ok config
  | (Except.error e, _) => Except.error e

/-! ## Helper lemmas shared across claims -/

/-- Lemma: `merge_env_rest` never changes the level field. -/
theorem merge_env_rest_level (c : LoggingConfig) (s : EnvState) :
    (LoggingConfig.merge_env_rest c s).2.level = c.level := by
  unfold LoggingConfig.merge_env_rest
  cases hs : s.eff_service_name <;> cases he : s.eff_environment <;>
    simp [hs, he] <;> split <;> simp

/-- The service-name field after `merge_env_rest`: the effective
service-name variable when present, otherwise the incoming value. -/
theorem merge_env_rest_service_name (c : LoggingConfig) (s : EnvState) :
    (LoggingConfig.merge_env_rest c s).2.service_name =
      (s.eff_service_name.getD c.service_name) := by
  unfold LoggingConfig.merge_env_rest
  cases hs : s.eff_service_name <;> cases he : s.eff_environment <;>
    simp [hs, he] <;> split <;> simp

/-- Lemma: `merge_env_rest` leaves the environment field alone when the effective
environment variable is absent. -/
theorem merge_env_rest_environment_none (c : LoggingConfig) (s : EnvState)
    (h : s.eff_environment = none) :
    (LoggingConfig.merge_env_rest c s).2.environment = c.environment := by
  unfold LoggingConfig.merge_env_rest
  cases hs : s.eff_service_name <;> simp [hs, h]

/-- Lemma: `merge_env_rest` on an invalid environment literal: a configuration
error, with the environment field untouched. -/
theorem merge_env_rest_environment_invalid (c : LoggingConfig) (s : EnvState)
    (v : String) (hv : s.eff_environment = some v)
    (hp : parse_environment v = none) :
    (LoggingConfig.merge_env_rest c s).1 =
      Except.error (TylError.configuration ("invalid environment: " ++ v)) ∧
    (LoggingConfig.merge_env_rest c s).2.environment = c.environment := by
  unfold LoggingConfig.merge_env_rest
  cases hs : s.eff_service_name <;> simp [hs, hv, hp]

/-- Sample concrete record used by witnesses. -/
def sample_record : LogRecord :=
  { level := LogLevel.Error
    message := "boom"
    timestamp := 42
    fields := [("code", Json.num 500)]
    request_id := none }

/-- Sample concrete config used by counterexamples and witnesses. -/
def cfg_app : LoggingConfig :=
  { service_name := "app"
    level := LogLevel.Info
    environment := Environment.Development }

/-! ## Claims -/

/-- C1: `JsonLogger::log` emits exactly one JSON object per call, with
exactly the five top-level keys timestamp, level, message, fields,
request_id; timestamp, level, message and fields carry the record's data
through unchanged, and request_id is JSON null when the record has no
request id and the record's request-id string otherwise. -/
theorem C1_json_logger_shape (r : LogRecord) :
    (JsonLogger.log r).length = 1 ∧
    JsonLogger.log r = [JsonLogger.logValue r] ∧
    (JsonLogger.logValue r).obj_keys =
      ["timestamp", "level", "message", "fields", "request_id"] ∧
    (JsonLogger.logValue r).obj_lookup "timestamp" = some (Json.num r.timestamp) ∧
    (JsonLogger.logValue r).obj_lookup "level" =
      some (Json.str (format_level r.level)) ∧
    (JsonLogger.logValue r).obj_lookup "message" = some (Json.str r.message) ∧
    (JsonLogger.logValue r).obj_lookup "fields" = some (Json.obj r.fields) ∧
    (r.request_id = none →
      (JsonLogger.logValue r).obj_lookup "request_id" = some Json.null) ∧
    (∀ id, r.request_id = some id →
      (JsonLogger.logValue r).obj_lookup "request_id" = some (Json.str id)) := by
  refine ⟨rfl, rfl, rfl, ?_, ?_, ?_, ?_, ?_, ?_⟩
  · simp [JsonLogger.logValue, Json.obj_lookup, Json.assoc_find]
  · simp [JsonLogger.logValue, Json.obj_lookup, Json.assoc_find]
  · simp [JsonLogger.logValue, Json.obj_lookup, Json.assoc_find]
  · simp [JsonLogger.logValue, Json.obj_lookup, Json.assoc_find]
  · intro h
    simp [JsonLogger.logValue, Json.obj_lookup, Json.assoc_find, h]
  · intro id h
    simp [JsonLogger.logValue, Json.obj_lookup, Json.assoc_find, h]

/-- Witness for C1 at a concrete record. -/
theorem C1_json_logger_shape_witness :
    (JsonLogger.log sample_record).length = 1 ∧
    (JsonLogger.logValue sample_record).obj_lookup "request_id" = some Json.null ∧
    (JsonLogger.logValue (sample_record.with_request_id "abc")).obj_lookup
      "request_id" = some (Json.str "abc") :=
  ⟨(C1_json_logger_shape sample_record).1,
   (C1_json_logger_shape sample_record).2.2.2.2.2.2.2.1 rfl,
   (C1_json_logger_shape (sample_record.with_request_id "abc")).2.2.2.2.2.2.2.2
     "abc" rfl⟩

/-- C2: `ConsoleLogger::log` emits exactly the single line
`[<timestamp>] <LEVEL>: <message>`, the timestamp rendered as decimal
digits (`Nat.repr`), the level as its fixed literal, the message raw and
unescaped; the fields mapping and the request id never influence the
output. -/
theorem C2_console_logger_format (r : LogRecord) :
    (ConsoleLogger.log r).length = 1 ∧
    ConsoleLogger.log r =
      ["[" ++ Nat.repr r.timestamp ++ "] " ++ format_level r.level
        ++ ": " ++ r.message] ∧
    format_level LogLevel.Trace = "TRACE" ∧
    format_level LogLevel.Debug = "DEBUG" ∧
    format_level LogLevel.Info = "INFO" ∧
    format_level LogLevel.Warn = "WARN" ∧
    format_level LogLevel.Error = "ERROR" ∧
    (∀ fs rid,
      ConsoleLogger.log { r with fields := fs, request_id := rid } =
        ConsoleLogger.log r) :=
  ⟨rfl, rfl, rfl, rfl, rfl, rfl, rfl, fun _ _ => rfl⟩

/-- C8: `with_request_id` sets the request id and leaves level, message,
timestamp and the fields mapping untouched. -/
theorem C8_with_request_id_frame (r : LogRecord) (id : String) :
    (r.with_request_id id).request_id = some id ∧
    (r.with_request_id id).level = r.level ∧
    (r.with_request_id id).message = r.message ∧
    (r.with_request_id id).timestamp = r.timestamp ∧
    (r.with_request_id id).fields = r.fields :=
  ⟨rfl, rfl, rfl, rfl, rfl⟩

/-- C9: `ConfigPlugin::from_env` for `LoggingConfig` ignores the receiver:
for any two receivers the result coincides, and it equals the result of
building a fresh config with service name "app", Info level and the
detected environment, then merging the environment overlays. -/
theorem C9_from_env_ignores_receiver (self other : LoggingConfig)
    (s : EnvState) :
    LoggingConfig.from_env self s = LoggingConfig.from_env other s ∧
    LoggingConfig.from_env self s =
      (match LoggingConfig.merge_env
          { service_name := "app", level := LogLevel.Info,
            environment := Environment.from_env s } s with
       | (Except.ok _, config) => Except.ok config
       | (Except.error e, _) => Except.error e) ∧
    (LoggingConfig.new "app" s).service_name = "app" ∧
    (LoggingConfig.new "app" s).level = LogLevel.Info ∧
    (LoggingConfig.new "app" s).environment = Environment.from_env s :=
  ⟨rfl, rfl, rfl, rfl, rfl⟩

/-- The concrete environment for C10: a valid log level, a service name,
and an invalid runtime environment. -/
def c10_env : EnvState :=
  { tyl_log_level := some "DEBUG"
    log_level := none
    tyl_service_name := some "svc"
    service_name := none
    tyl_environment := some "staging"
    environment := none }

/-- C10: `merge_env` is not atomic on failure: with a valid log-level
variable, a service-name variable and an invalid environment variable, it
returns a configuration error while the receiver's level and service_name
have already been overwritten. -/
theorem C10_merge_env_not_atomic :
    (LoggingConfig.merge_env cfg_app c10_env).1 =
      Except.error (TylError.configuration "invalid environment: staging") ∧
    (LoggingConfig.merge_env cfg_app c10_env).2.level = LogLevel.Debug ∧
    (LoggingConfig.merge_env cfg_app c10_env).2.service_name = "svc" ∧
    cfg_app.level = LogLevel.Info ∧
    cfg_app.service_name = "app" := by
  refine ⟨?_, ?_, ?_, rfl, rfl⟩ <;> rfl

/-- C3: `Environment::from_env` (environment variable modelled as explicit
input): a case-insensitive match of "production" or "prod" yields
Production, of "test" or "testing" yields Test, anything else — the
variable being absent included — yields Development; the function is total
and never fails. -/
theorem C3_environment_from_env (s : EnvState) (v : String) :
    (s.environment = none →
      Environment.from_env s = Environment.Development) ∧
    (s.environment = some v →
      ((rust_to_lowercase v = "production" ∨ rust_to_lowercase v = "prod") →
        Environment.from_env s = Environment.Production) ∧
      ((rust_to_lowercase v = "test" ∨ rust_to_lowercase v = "testing") →
        Environment.from_env s = Environment.Test) ∧
      (rust_to_lowercase v ≠ "production" → rust_to_lowercase v ≠ "prod" →
        rust_to_lowercase v ≠ "test" → rust_to_lowercase v ≠ "testing" →
        Environment.from_env s = Environment.Development)) := by
  constructor
  · intro h
    unfold Environment.from_env
    rw [h]
    rfl
  · intro h
    unfold Environment.from_env
    rw [h]
    simp only [Option.getD]
    refine ⟨?_, ?_, ?_⟩
    · rintro (hv | hv) <;> rw [hv] <;> rfl
    · rintro (hv | hv) <;> rw [hv] <;> rfl
    · intro h1 h2 h3 h4
      split <;> simp_all

/-- Witness for C3 at concrete variable values. -/
theorem C3_environment_from_env_witness :
    Environment.from_env EnvState.empty = Environment.Development ∧
    Environment.from_env { EnvState.empty with environment := some "PROD" } =
      Environment.Production ∧
    Environment.from_env { EnvState.empty with environment := some "Testing" } =
      Environment.Test ∧
    Environment.from_env { EnvState.empty with environment := some "staging" } =
      Environment.Development :=
  ⟨(C3_environment_from_env EnvState.empty "x").1 rfl,
   ((C3_environment_from_env
       { EnvState.empty with environment := some "PROD" } "PROD").2 rfl).1
     (Or.inr (by rfl)),
   ((C3_environment_from_env
       { EnvState.empty with environment := some "Testing" } "Testing").2 rfl).2.1
     (Or.inr (by rfl)),
   ((C3_environment_from_env
       { EnvState.empty with environment := some "staging" } "staging").2 rfl).2.2
     (by decide) (by decide) (by decide) (by decide)⟩

/-- C4 amended: with the log-level variable absent, `merge_env` keeps the
level; with it present and parsing to a level (TRACE/DEBUG/INFO/WARN/
WARNING/ERROR case-insensitively, WARNING mapping to Warn), the level is
set to that value; with it present and invalid, `merge_env` returns a
configuration error and leaves the whole receiver untouched.  A present
service-name variable replaces service_name verbatim — provided the
log-level variable is absent or valid, since an invalid log level returns
before the service-name variable is read — and an absent one leaves it
untouched. -/
theorem C4_merge_env_overlays (c : LoggingConfig) (s : EnvState) :
    (s.eff_log_level = none →
      (LoggingConfig.merge_env c s).2.level = c.level) ∧
    (∀ v lv, s.eff_log_level = some v → parse_log_level v = some lv →
      (LoggingConfig.merge_env c s).2.level = lv) ∧
    (∀ v, s.eff_log_level = some v → parse_log_level v = none →
      (LoggingConfig.merge_env c s).1 =
        Except.error (TylError.configuration ("invalid log level: " ++ v)) ∧
      (LoggingConfig.merge_env c s).2 = c) ∧
    (∀ v, rust_to_uppercase v = "TRACE" →
      parse_log_level v = some LogLevel.Trace) ∧
    (∀ v, rust_to_uppercase v = "DEBUG" →
      parse_log_level v = some LogLevel.Debug) ∧
    (∀ v, rust_to_uppercase v = "INFO" →
      parse_log_level v = some LogLevel.Info) ∧
    (∀ v, rust_to_uppercase v = "WARN" ∨ rust_to_uppercase v = "WARNING" →
      parse_log_level v = some LogLevel.Warn) ∧
    (∀ v, rust_to_uppercase v = "ERROR" →
      parse_log_level v = some LogLevel.Error) ∧
    (∀ n, s.eff_service_name = some n →
      (s.eff_log_level = none ∨
        ∃ v lv, s.eff_log_level = some v ∧ parse_log_level v = some lv) →
      (LoggingConfig.merge_env c s).2.service_name = n) ∧
    (s.eff_service_name = none →
      (LoggingConfig.merge_env c s).2.service_name = c.service_name) := by
  refine ⟨?_, ?_, ?_, ?_, ?_, ?_, ?_, ?_, ?_, ?_⟩
  · intro h
    simp [LoggingConfig.merge_env, h, merge_env_rest_level]
  · intro v lv hv hp
    simp [LoggingConfig.merge_env, hv, hp, merge_env_rest_level]
  · intro v hv hp
    simp [LoggingConfig.merge_env, hv, hp]
  · intro v h
    unfold parse_log_level
    rw [h]
    rfl
  · intro v h
    unfold parse_log_level
    rw [h]
    rfl
  · intro v h
    unfold parse_log_level
    rw [h]
    rfl
  · rintro v (h | h) <;> (unfold parse_log_level; rw [h]; rfl)
  · intro v h
    unfold parse_log_level
    rw [h]
    rfl
  · rintro n hn (hl | ⟨v, lv, hv, hp⟩)
    · simp [LoggingConfig.merge_env, hl, merge_env_rest_service_name, hn]
    · simp [LoggingConfig.merge_env, hv, hp, merge_env_rest_service_name, hn]
  · intro hn
    cases hl : s.eff_log_level with
    | none => simp [LoggingConfig.merge_env, hl, merge_env_rest_service_name, hn]
    | some v =>
      cases hp : parse_log_level v <;>
        simp [LoggingConfig.merge_env, hl, hp, merge_env_rest_service_name, hn]

/-- The concrete environment for the C4 counterexample: an invalid
log-level value together with a bare service-name variable. -/
def c4_env : EnvState :=
  { tyl_log_level := some "VERBOSE"
    log_level := none
    tyl_service_name := none
    service_name := some "svc"
    tyl_environment := none
    environment := none }

/-- C4 counterexample: with the log-level variable set to the invalid
value "VERBOSE" and the service-name variable set to "svc", `merge_env`
returns an error and the receiver's service_name stays "app" — the present
service-name variable is not applied, contradicting the claim that a
present service-name variable always replaces service_name verbatim. -/
theorem C4_counterexample :
    c4_env.eff_service_name = some "svc" ∧
    (LoggingConfig.merge_env cfg_app c4_env).2.service_name = "app" ∧
    (LoggingConfig.merge_env cfg_app c4_env).2.service_name ≠ "svc" ∧
    (LoggingConfig.merge_env cfg_app c4_env).1 =
      Except.error (TylError.configuration "invalid log level: VERBOSE") := by
  refine ⟨rfl, ?_, ?_, ?_⟩ <;> first | rfl | decide

/-- The concrete environment for the C4 witness: a valid mixed-case
log-level value and a bare service-name variable. -/
def c4w_env : EnvState :=
  { tyl_log_level := some "warning"
    log_level := none
    tyl_service_name := none
    service_name := some "svc"
    tyl_environment := none
    environment := none }

/-- Witness for C4 at concrete inputs. -/
theorem C4_merge_env_overlays_witness :
    (LoggingConfig.merge_env cfg_app c4w_env).2.level = LogLevel.Warn ∧
    (LoggingConfig.merge_env cfg_app c4w_env).2.service_name = "svc" ∧
    parse_log_level "warning" = some LogLevel.Warn :=
  ⟨(C4_merge_env_overlays cfg_app c4w_env).2.1 "warning" LogLevel.Warn rfl
     (by rfl),
   (C4_merge_env_overlays cfg_app c4w_env).2.2.2.2.2.2.2.2.1 "svc" rfl
     (Or.inr ⟨"warning", LogLevel.Warn, rfl, by rfl⟩),
   (C4_merge_env_overlays cfg_app c4w_env).2.2.2.2.2.2.1 "warning"
     (Or.inr (by rfl))⟩

/-- C5 counterexample: "staging" is not a literal `merge_env` accepts for
the runtime environment, yet `Environment::from_env` reading
`ENVIRONMENT=staging` silently substitutes the default Development rather
than surfacing any failure — contradicting the claim that no operation
silently substitutes a default value for an invalid literal. -/
theorem C5_counterexample :
    parse_environment "staging" = none ∧
    Environment.from_env { EnvState.empty with environment := some "staging" } =
      Environment.Development := by
  exact ⟨by rfl, by rfl⟩

/-- C5 amended: `merge_env` surfaces invalid literals as typed
configuration errors and never substitutes a default — an invalid
log-level literal yields a configuration error with the level untouched,
and an invalid environment literal yields a configuration error with the
environment field untouched; `Environment::from_env`, by contrast, maps
any unrecognized value to Development without error. -/
theorem C5_merge_env_rejects_invalid (c : LoggingConfig) (s : EnvState) :
    (∀ v, s.eff_log_level = some v → parse_log_level v = none →
      (LoggingConfig.merge_env c s).1 =
        Except.error (TylError.configuration ("invalid log level: " ++ v)) ∧
      (LoggingConfig.merge_env c s).2.level = c.level) ∧
    (∀ v, s.eff_environment = some v → parse_environment v = none →
      (∃ msg, (LoggingConfig.merge_env c s).1 =
        Except.error (TylError.configuration msg)) ∧
      (LoggingConfig.merge_env c s).2.environment = c.environment) := by
  constructor
  · intro v hv hp
    simp [LoggingConfig.merge_env, hv, hp]
  · intro v hv hp
    cases hl : s.eff_log_level with
    | none =>
      have h := merge_env_rest_environment_invalid c s v hv hp
      simp only [LoggingConfig.merge_env, hl]
      exact ⟨⟨"invalid environment: " ++ v, h.1⟩, h.2⟩
    | some w =>
      cases hpw : parse_log_level w with
      | none => simp [LoggingConfig.merge_env, hl, hpw]
      | some lv =>
        have h := merge_env_rest_environment_invalid
          { c with level := lv } s v hv hp
        simp only [LoggingConfig.merge_env, hl, hpw]
        exact ⟨⟨"invalid environment: " ++ v, h.1⟩, h.2⟩

/-- The concrete environment for the C5 witness: an invalid bare log-level
value and an invalid prefixed environment value. -/
def c5w_env : EnvState :=
  { tyl_log_level := none
    log_level := some "VERBOSE"
    tyl_service_name := none
    service_name := none
    tyl_environment := some "staging"
    environment := none }

/-- Witness for C5 at concrete inputs. -/
theorem C5_merge_env_rejects_invalid_witness :
    (LoggingConfig.merge_env cfg_app c5w_env).1 =
      Except.error (TylError.configuration "invalid log level: VERBOSE") ∧
    (LoggingConfig.merge_env cfg_app c5w_env).2.level = cfg_app.level ∧
    (∃ msg, (LoggingConfig.merge_env cfg_app c5w_env).1 =
      Except.error (TylError.configuration msg)) ∧
    (LoggingConfig.merge_env cfg_app c5w_env).2.environment =
      cfg_app.environment :=
  ⟨((C5_merge_env_rejects_invalid cfg_app c5w_env).1 "VERBOSE" rfl (by rfl)).1,
   ((C5_merge_env_rejects_invalid cfg_app c5w_env).1 "VERBOSE" rfl (by rfl)).2,
   ((C5_merge_env_rejects_invalid cfg_app c5w_env).2 "staging" rfl (by rfl)).1,
   ((C5_merge_env_rejects_invalid cfg_app c5w_env).2 "staging" rfl (by rfl)).2⟩

/-- The concrete environment for the C6 counterexample: only the prefixed
runtime-environment variable is set. -/
def c6_env : EnvState :=
  { tyl_log_level := none
    log_level := none
    tyl_service_name := none
    service_name := none
    tyl_environment := some "production"
    environment := none }

/-- C6 counterexample: `merge_env` also reads the runtime-environment
variable and modifies the environment field — with `TYL_ENVIRONMENT` set to
"production" it changes the receiver's environment from Development to
Production, contradicting the claim that merge_env reads exactly two
overlay variables and leaves the environment field unchanged. -/
theorem C6_counterexample :
    (LoggingConfig.merge_env cfg_app c6_env).2.environment =
      Environment.Production ∧
    cfg_app.environment = Environment.Development ∧
    (LoggingConfig.merge_env cfg_app c6_env).1 = Except.ok () := by
  refine ⟨?_, rfl, ?_⟩ <;> rfl

/-- C6 amended: `merge_env` reads three overlay variables — log level,
service name and runtime environment — and modifies only the
corresponding three fields; each field is left unchanged whenever its
effective variable is absent. -/
theorem C6_merge_env_frame (c : LoggingConfig) (s : EnvState) :
    (s.eff_log_level = none →
      (LoggingConfig.merge_env c s).2.level = c.level) ∧
    (s.eff_service_name = none →
      (LoggingConfig.merge_env c s).2.service_name = c.service_name) ∧
    (s.eff_environment = none →
      (LoggingConfig.merge_env c s).2.environment = c.environment) := by
  refine ⟨?_, ?_, ?_⟩
  · intro h
    simp [LoggingConfig.merge_env, h, merge_env_rest_level]
  · intro hn
    cases hl : s.eff_log_level with
    | none => simp [LoggingConfig.merge_env, hl, merge_env_rest_service_name, hn]
    | some v =>
      cases hp : parse_log_level v <;>
        simp [LoggingConfig.merge_env, hl, hp, merge_env_rest_service_name, hn]
  · intro he
    cases hl : s.eff_log_level with
    | none => simp [LoggingConfig.merge_env, hl,
        merge_env_rest_environment_none c s he]
    | some v =>
      cases hp : parse_log_level v with
      | none => simp [LoggingConfig.merge_env, hl, hp]
      | some lv => simp [LoggingConfig.merge_env, hl, hp,
          merge_env_rest_environment_none { c with level := lv } s he]

/-- Witness for C6 at concrete inputs: with the process environment empty,
`merge_env` leaves every field of the receiver unchanged. -/
theorem C6_merge_env_frame_witness :
    (LoggingConfig.merge_env cfg_app EnvState.empty).2.level = cfg_app.level ∧
    (LoggingConfig.merge_env cfg_app EnvState.empty).2.service_name =
      cfg_app.service_name ∧
    (LoggingConfig.merge_env cfg_app EnvState.empty).2.environment =
      cfg_app.environment :=
  ⟨(C6_merge_env_frame cfg_app EnvState.empty).1 rfl,
   (C6_merge_env_frame cfg_app EnvState.empty).2.1 rfl,
   (C6_merge_env_frame cfg_app EnvState.empty).2.2 rfl⟩

/-- Lemma: `merge_env_rest` depends on the environment state only through the two
effective variables it reads. -/
theorem merge_env_rest_congr (c : LoggingConfig) (s t : EnvState)
    (h2 : s.eff_service_name = t.eff_service_name)
    (h3 : s.eff_environment = t.eff_environment) :
    LoggingConfig.merge_env_rest c s = LoggingConfig.merge_env_rest c t := by
  unfold LoggingConfig.merge_env_rest
  rw [h2, h3]

/-- C7 counterexample: `Environment::from_env` does not recognize the
prefixed form — with `TYL_ENVIRONMENT=production` and the bare variable
absent it yields Development, while the same value in the bare
`ENVIRONMENT` variable yields Production. -/
theorem C7_counterexample :
    Environment.from_env
      { EnvState.empty with tyl_environment := some "production" } =
      Environment.Development ∧
    Environment.from_env
      { EnvState.empty with environment := some "production" } =
      Environment.Production := by
  exact ⟨by rfl, by rfl⟩

/-- C7 amended: `merge_env` recognizes the prefixed and the bare form of
all three variables, the prefixed form taking precedence — its result is a
function of the three prefixed-or-else-bare effective values, the
effective value is the prefixed one when present and the bare one
otherwise; `Environment::from_env`, by contrast, reads only the bare
`ENVIRONMENT` variable. -/
theorem C7_env_var_forms (c : LoggingConfig) (s t : EnvState) :
    (s.eff_log_level = t.eff_log_level →
      s.eff_service_name = t.eff_service_name →
      s.eff_environment = t.eff_environment →
      LoggingConfig.merge_env c s = LoggingConfig.merge_env c t) ∧
    (∀ v, s.tyl_log_level = some v → s.eff_log_level = some v) ∧
    (s.tyl_log_level = none → s.eff_log_level = s.log_level) ∧
    (∀ v, s.tyl_service_name = some v → s.eff_service_name = some v) ∧
    (s.tyl_service_name = none → s.eff_service_name = s.service_name) ∧
    (∀ v, s.tyl_environment = some v → s.eff_environment = some v) ∧
    (s.tyl_environment = none → s.eff_environment = s.environment) ∧
    (s.environment = t.environment →
      Environment.from_env s = Environment.from_env t) := by
  refine ⟨?_, ?_, ?_, ?_, ?_, ?_, ?_, ?_⟩
  · intro h1 h2 h3
    unfold LoggingConfig.merge_env
    rw [h1]
    cases ht : t.eff_log_level with
    | none => exact merge_env_rest_congr c s t h2 h3
    | some v =>
      cases hp : parse_log_level v with
      | none => simp [hp]
      | some lv => simp [hp, merge_env_rest_congr { c with level := lv } s t h2 h3]
  · intro v h
    unfold EnvState.eff_log_level
    rw [h]
    rfl
  · intro h
    unfold EnvState.eff_log_level
    rw [h]
    rfl
  · intro v h
    unfold EnvState.eff_service_name
    rw [h]
    rfl
  · intro h
    unfold EnvState.eff_service_name
    rw [h]
    rfl
  · intro v h
    unfold EnvState.eff_environment
    rw [h]
    rfl
  · intro h
    unfold EnvState.eff_environment
    rw [h]
    rfl
  · intro h
    unfold Environment.from_env
    rw [h]

/-- Environment state for the C7 witness with both forms of each variable
set. -/
def c7_both : EnvState :=
  { tyl_log_level := some "debug"
    log_level := some "error"
    tyl_service_name := some "svc-a"
    service_name := some "svc-b"
    tyl_environment := some "prod"
    environment := some "test" }

/-- Environment state for the C7 witness with only the prefixed forms
set. -/
def c7_tyl_only : EnvState :=
  { tyl_log_level := some "debug"
    log_level := none
    tyl_service_name := some "svc-a"
    service_name := none
    tyl_environment := some "prod"
    environment := none }

/-- Witness for C7 at concrete inputs: with both forms set, `merge_env`
behaves as if only the prefixed values were present. -/
theorem C7_env_var_forms_witness :
    LoggingConfig.merge_env cfg_app c7_both =
      LoggingConfig.merge_env cfg_app c7_tyl_only ∧
    c7_both.eff_log_level = some "debug" ∧
    c7_both.eff_environment = some "prod" ∧
    Environment.from_env c7_both =
      Environment.from_env { EnvState.empty with environment := some "test" } :=
  ⟨(C7_env_var_forms cfg_app c7_both c7_tyl_only).1 rfl rfl rfl,
   (C7_env_var_forms cfg_app c7_both c7_tyl_only).2.1 "debug" rfl,
   (C7_env_var_forms cfg_app c7_both c7_tyl_only).2.2.2.2.2.1 "prod" rfl,
   (C7_env_var_forms cfg_app c7_both
       { EnvState.empty with environment := some "test" }).2.2.2.2.2.2.2 rfl⟩
